import Mathlib

/-!
Shallow embedding of the image compressor/cropper component
(`src/unnamed/part_000`): the crop-extraction pipeline (`getCroppedImage`),
the PDF wrapper (`convertToPDF`), the derived statistics (`compressionRatio`,
`formatBytes`) and the file-selection state transition (`handleFileSelect`).
JavaScript numbers are modelled as exact rationals, byte sizes as naturals,
and the browser environment (HEIC decoder, data-URL reader) as explicit
function parameters.
-/

namespace ImageCompressor

/-- A browser `File` value: display name, declared MIME type, byte size. -/
structure JSFile where
  name : String
  mimeType : String
  size : ℕ
deriving DecidableEq, Repr

/-- A browser `Blob`: MIME type and byte size. -/
structure Blob where
  mimeType : String
  size : ℕ
deriving DecidableEq, Repr

/-- An `HTMLImageElement` as used by `getCroppedImage`: native pixel
dimensions (`naturalWidth`/`naturalHeight`) and displayed dimensions
(`width`/`height`). -/
structure ImageElement where
  naturalWidth : ℚ
  naturalHeight : ℚ
  width : ℚ
  height : ℚ
deriving DecidableEq, Repr

/-- A `PixelCrop` rectangle from `react-image-crop`, in displayed-pixel
coordinates. -/
structure PixelCrop where
  x : ℚ
  y : ℚ
  width : ℚ
  height : ℚ
deriving DecidableEq, Repr

/-- The observable result of `getCroppedImage` (lines 115-146): the canvas
dimensions, the `drawImage` source rectangle read from the native image, the
`drawImage` destination rectangle, and the MIME type passed to
`canvas.toBlob`. -/
structure CroppedCanvas where
  canvasWidth : ℚ
  canvasHeight : ℚ
  srcX : ℚ
  srcY : ℚ
  srcW : ℚ
  srcH : ℚ
  destX : ℚ
  destY : ℚ
  destW : ℚ
  destH : ℚ
  blobType : String
deriving DecidableEq, Repr

/-- `getCroppedImage` (lines 115-146): `scaleX = naturalWidth / width`,
`scaleY = naturalHeight / height`; canvas sized to the crop's own width and
height; `drawImage` reads `(x*scaleX, y*scaleY, w*scaleX, h*scaleY)` and
writes to `(0, 0, w, h)`; the blob is encoded via `canvas.toBlob(_,
'image/jpeg')`. -/
def getCroppedImage (image : ImageElement) (crop : PixelCrop) : CroppedCanvas :=
  let scaleX := image.naturalWidth / image.width
  let scaleY := image.naturalHeight / image.height
  { canvasWidth := crop.width
    canvasHeight := crop.height
    srcX := crop.x * scaleX
    srcY := crop.y * scaleY
    srcW := crop.width * scaleX
    srcH := crop.height * scaleY
    destX := 0
    destY := 0
    destW := crop.width
    destH := crop.height
    blobType := "image/jpeg" }

/-- Page orientation of a `jsPDF` document. -/
inductive Orientation where
  | landscape
  | portrait
deriving DecidableEq, Repr

/-- An image placed on a PDF page by `pdf.addImage(data, fmt, x, y, w, h)`. -/
structure PlacedImage where
  fmt : String
  x : ℚ
  y : ℚ
  w : ℚ
  h : ℚ
deriving DecidableEq, Repr

/-- The observable result of `convertToPDF`: orientation and page format
passed to the `jsPDF` constructor, the page count of the produced document,
and the placed images. -/
structure PDFDoc where
  orientation : Orientation
  pageWidth : ℚ
  pageHeight : ℚ
  pageCount : ℕ
  images : List PlacedImage
deriving DecidableEq, Repr

/-- The pixel dimensions of the decoded compressed image (`img.width`,
`img.height` in `convertToPDF`'s onload handler). -/
structure LoadedImage where
  width : ℚ
  height : ℚ
deriving DecidableEq, Repr

/-- `convertToPDF` (lines 148-167): constructs a `jsPDF` document with
`orientation: img.width > img.height ? 'landscape' : 'portrait'` and
`format: [img.width, img.height]`, then adds the whole image at the origin
with the image's own dimensions. A fresh `jsPDF` document has exactly one
page and `addImage` adds none. -/
def convertToPDF (img : LoadedImage) : PDFDoc :=
  { orientation := if img.width > img.height then .landscape else .portrait
    pageWidth := img.width
    pageHeight := img.height
    pageCount := 1
    images := [{ fmt := "JPEG", x := 0, y := 0, w := img.width, h := img.height }] }

/-- JavaScript `Math.round`: rounds half toward positive infinity. -/
def jsRound (q : ℚ) : ℤ := ⌊q + 1/2⌋

/-- JavaScript `String.prototype.toLowerCase` on the character sequence. -/
def jsToLower (s : String) : String := ⟨s.data.map Char.toLower⟩

/-- JavaScript `String.prototype.endsWith`: `t` is a suffix of `s`. -/
def jsEndsWith (s t : String) : Bool :=
  s.data.reverse.take t.data.length == t.data.reverse

/-- `compressionRatio` (lines 186-188):
`originalSize > 0 && compressedSize > 0 ? Math.round((1 - compressedSize / originalSize) * 100) : 0`. -/
def compressionRatio (originalSize compressedSize : ℕ) : ℤ :=
  if 0 < originalSize ∧ 0 < compressedSize then
    jsRound ((1 - (compressedSize : ℚ) / (originalSize : ℚ)) * 100)
  else 0

/-- The `sizes` array of `formatBytes` (line 181). -/
def sizes : List String := ["Bytes", "KB", "MB", "GB"]

/-- The unit index `i = Math.floor(Math.log(bytes) / Math.log(1024))`
computed by `formatBytes` (line 182), i.e. the floor of the base-1024
logarithm. -/
def unitIndex (bytes : ℕ) : ℕ := Nat.log 1024 bytes

/-- How JavaScript prints the number `n / 100` (the value
`Math.round(x * 100) / 100` with `n = Math.round(x * 100)`, `n ≥ 0`):
shortest decimal with no trailing zeros. -/
def decimalOfHundredths (n : ℕ) : String :=
  if n % 100 = 0 then toString (n / 100)
  else if n % 10 = 0 then toString (n / 100) ++ "." ++ toString (n / 10 % 10)
  else if n % 100 < 10 then toString (n / 100) ++ ".0" ++ toString (n % 100)
  else toString (n / 100) ++ "." ++ toString (n % 100)

/-- `formatBytes` (lines 178-184). An out-of-range index into `sizes` yields
JavaScript `undefined`, which string concatenation renders as
`"undefined"`. -/
def formatBytes (bytes : ℕ) : String :=
  if bytes = 0 then "0 Bytes"
  else
    decimalOfHundredths
        (jsRound ((bytes : ℚ) / (1024 : ℚ) ^ unitIndex bytes * 100)).toNat
      ++ " " ++ ((sizes.get? (unitIndex bytes)).getD "undefined")

/-- The component state touched by `handleFileSelect` (lines 10-29):
`selectedFile`, `originalImage`, `processedImage`, `showCrop`,
`completedCrop`, `originalSize`, `compressedSize`, plus the list of alert
messages surfaced to the user so far. -/
structure ComponentState where
  selectedFile : Option JSFile
  originalImage : Option String
  processedImage : Option String
  showCrop : Bool
  completedCrop : Option PixelCrop
  originalSize : ℕ
  compressedSize : ℕ
  alerts : List String
deriving DecidableEq, Repr

/-- The browser environment consumed by `handleFileSelect`: the external
`heic2any` decoder (`none` models a thrown conversion error) and the
`FileReader.readAsDataURL` data-URL of a file. -/
structure BrowserEnv where
  heicConvert : JSFile → Option Blob
  dataURL : JSFile → String

/-- The HEIC routing test on line 39:
`file.type === 'image/heic' || file.name.toLowerCase().endsWith('.heic')`. -/
def isHeic (file : JSFile) : Bool :=
  file.mimeType == "image/heic" || jsEndsWith (jsToLower file.name) ".heic"

/-- `file.name.replace(/\.heic$/i, '.jpg')` (line 48): a case-insensitive
`.heic` suffix is replaced by `.jpg`; other names are unchanged. -/
def replaceHeicExt (name : String) : String :=
  if jsEndsWith (jsToLower name) ".heic" then
    ⟨name.data.take (name.data.length - 5)⟩ ++ ".jpg"
  else name

/-- The converted `File` built on lines 46-50: the HEIC decoder's blob,
renamed with a `.jpg` extension and declared `image/jpeg`. -/
def convertedHeicFile (file : JSFile) (blob : Blob) : JSFile :=
  { name := replaceHeicExt file.name, mimeType := "image/jpeg", size := blob.size }

/-- `handleFileSelect` (lines 31-68). With no file it returns unchanged.
Otherwise it sets `selectedFile` and `originalSize`; for a HEIC file it
converts via the external decoder (on success reading the converted file
into `originalImage` and replacing `selectedFile`; on failure logging and
alerting), for other files it reads the file into `originalImage`; finally
it unconditionally clears `processedImage`, `completedCrop` and
`showCrop`. -/
def handleFileSelect (env : BrowserEnv) (st : ComponentState)
    (selected : Option JSFile) : ComponentState :=
  match selected with
  | none => st
  | some file =>
    let st1 := { st with selectedFile := some file, originalSize := file.size }
    let st2 :=
      if isHeic file then
        match env.heicConvert file with
        | some blob =>
          let convertedFile := convertedHeicFile file blob
          { st1 with
            originalImage := some (env.dataURL convertedFile)
            selectedFile := some convertedFile }
        | none =>
          { st1 with alerts := st1.alerts ++ ["Error converting HEIC file"] }
      else
        { st1 with originalImage := some (env.dataURL file) }
    { st2 with processedImage := none, completedCrop := none, showCrop := false }

/-- The crop branch of `processImage` (lines 76-82): when a completed crop
and an image ref exist, the cropped blob from `getCroppedImage` (its byte
size supplied by the opaque canvas encoder `encodeSize`) is wrapped as
`new File([croppedBlob], selectedFile.name, { type: selectedFile.type })`;
otherwise the selected file is processed directly. Returns the file handed
to the compressor together with the intermediate cropped blob, if any. -/
def fileToProcess (encodeSize : CroppedCanvas → ℕ) (selectedFile : JSFile)
    (completedCrop : Option PixelCrop) (imgRef : Option ImageElement) :
    JSFile × Option Blob :=
  match completedCrop, imgRef with
  | some crop, some image =>
    let cc := getCroppedImage image crop
    let croppedBlob : Blob := { mimeType := cc.blobType, size := encodeSize cc }
    ({ name := selectedFile.name, mimeType := selectedFile.mimeType,
       size := croppedBlob.size }, some croppedBlob)
  | _, _ => (selectedFile, none)

/-! ## Helper lemmas -/

/-- Characterization of `jsRound` by the half-open interval it rounds into. -/
theorem jsRound_eq (q : ℚ) (n : ℤ) (h₁ : (n : ℚ) ≤ q + 1/2)
    (h₂ : q + 1/2 < (n : ℚ) + 1) : jsRound q = n := by
  rw [jsRound]
  exact Int.floor_eq_iff.mpr ⟨h₁, h₂⟩

/-! ## Claims -/

/-- C1: `getCroppedImage` computes `scaleX = naturalWidth / displayedWidth`
and `scaleY = naturalHeight / displayedHeight` and reads the source region
`(x*scaleX, y*scaleY, width*scaleX, height*scaleY)` from the native image;
when the display size is exactly half the native size (display dimensions
nonzero), the source rectangle is exactly double the crop rectangle. -/
theorem getCroppedImage_scale_correct (image : ImageElement) (crop : PixelCrop) :
    ((getCroppedImage image crop).srcX = crop.x * (image.naturalWidth / image.width) ∧
      (getCroppedImage image crop).srcY = crop.y * (image.naturalHeight / image.height) ∧
      (getCroppedImage image crop).srcW = crop.width * (image.naturalWidth / image.width) ∧
      (getCroppedImage image crop).srcH = crop.height * (image.naturalHeight / image.height)) ∧
    (image.width ≠ 0 → image.height ≠ 0 →
      image.naturalWidth = 2 * image.width → image.naturalHeight = 2 * image.height →
      (getCroppedImage image crop).srcX = 2 * crop.x ∧
      (getCroppedImage image crop).srcY = 2 * crop.y ∧
      (getCroppedImage image crop).srcW = 2 * crop.width ∧
      (getCroppedImage image crop).srcH = 2 * crop.height) := by
  refine ⟨⟨rfl, rfl, rfl, rfl⟩, fun hw hh hnw hnh => ?_⟩
  have hx : image.naturalWidth / image.width = 2 := by
    rw [hnw, mul_div_assoc, div_self hw, mul_one]
  have hy : image.naturalHeight / image.height = 2 := by
    rw [hnh, mul_div_assoc, div_self hh, mul_one]
  refine ⟨?_, ?_, ?_, ?_⟩ <;> simp only [getCroppedImage, hx, hy] <;> ring

/-- Witness for C1 at a concrete image displayed at half its native size. -/
theorem getCroppedImage_scale_correct_witness :
    (getCroppedImage ⟨800, 600, 400, 300⟩ ⟨10, 20, 100, 50⟩).srcX = 2 * 10 ∧
    (getCroppedImage ⟨800, 600, 400, 300⟩ ⟨10, 20, 100, 50⟩).srcY = 2 * 20 ∧
    (getCroppedImage ⟨800, 600, 400, 300⟩ ⟨10, 20, 100, 50⟩).srcW = 2 * 100 ∧
    (getCroppedImage ⟨800, 600, 400, 300⟩ ⟨10, 20, 100, 50⟩).srcH = 2 * 50 :=
  (getCroppedImage_scale_correct ⟨800, 600, 400, 300⟩ ⟨10, 20, 100, 50⟩).2
    (by norm_num) (by norm_num) (by norm_num) (by norm_num)

/-- C2: the canvas produced by `getCroppedImage` (and hence the extracted
raster, drawn to fill it) has pixel dimensions equal to the crop
rectangle's width and height as given in display coordinates. -/
theorem getCroppedImage_output_dims (image : ImageElement) (crop : PixelCrop) :
    (getCroppedImage image crop).canvasWidth = crop.width ∧
    (getCroppedImage image crop).canvasHeight = crop.height ∧
    (getCroppedImage image crop).destX = 0 ∧
    (getCroppedImage image crop).destY = 0 ∧
    (getCroppedImage image crop).destW = crop.width ∧
    (getCroppedImage image crop).destH = crop.height :=
  ⟨rfl, rfl, rfl, rfl, rfl, rfl⟩

/-- C3: `convertToPDF` produces a single-page document whose page size
equals the compressed image's pixel dimensions, oriented landscape iff
width > height, with the image embedded at the origin filling the page. -/
theorem convertToPDF_page_spec (img : LoadedImage) :
    (convertToPDF img).pageCount = 1 ∧
    (convertToPDF img).pageWidth = img.width ∧
    (convertToPDF img).pageHeight = img.height ∧
    ((convertToPDF img).orientation = Orientation.landscape ↔ img.width > img.height) ∧
    (convertToPDF img).images = [⟨"JPEG", 0, 0, img.width, img.height⟩] := by
  refine ⟨rfl, rfl, rfl, ?_, rfl⟩
  simp only [convertToPDF]
  split
  · next h => exact iff_of_true rfl h
  · next h => exact iff_of_false (by decide) h

/-- C4: `compressionRatio` is 0 when either size is 0, and otherwise equals
`round((1 - compressedSize/originalSize) * 100)`. -/
theorem compressionRatio_spec (o c : ℕ) :
    (o = 0 ∨ c = 0 → compressionRatio o c = 0) ∧
    (0 < o → 0 < c →
      compressionRatio o c = jsRound ((1 - (c : ℚ) / (o : ℚ)) * 100)) := by
  constructor
  · rintro (rfl | rfl) <;> simp [compressionRatio]
  · intro ho hc
    rw [compressionRatio, if_pos ⟨ho, hc⟩]

/-- Witness for C4: a 2000-byte original compressed to 500 bytes saves 75%,
and a zero original size yields ratio 0. -/
theorem compressionRatio_spec_witness :
    compressionRatio 0 500 = 0 ∧
    compressionRatio 2000 500 = jsRound ((1 - (500 : ℚ) / (2000 : ℚ)) * 100) ∧
    compressionRatio 2000 500 = 75 :=
  ⟨(compressionRatio_spec 0 500).1 (Or.inl rfl),
   (compressionRatio_spec 2000 500).2 (by norm_num) (by norm_num),
   by rw [(compressionRatio_spec 2000 500).2 (by norm_num) (by norm_num)]
      exact jsRound_eq _ 75 (by norm_num) (by norm_num)⟩

/-- Evaluation rule for `formatBytes` on a nonzero byte count, given the
unit index and the rounded hundredths value. -/
theorem formatBytes_eval (bytes i n : ℕ) (hb : ¬bytes = 0)
    (hi : unitIndex bytes = i)
    (hn : jsRound ((bytes : ℚ) / (1024 : ℚ) ^ i * 100) = (n : ℤ)) :
    formatBytes bytes =
      decimalOfHundredths n ++ " " ++ (sizes.get? i).getD "undefined" := by
  rw [formatBytes, if_neg hb, hi, hn, Int.toNat_natCast]

/-- C5: the three example evaluations of `formatBytes`. -/
theorem formatBytes_examples :
    formatBytes 0 = "0 Bytes" ∧ formatBytes 1024 = "1 KB" ∧
    formatBytes 1536 = "1.5 KB" := by
  refine ⟨rfl, ?_, ?_⟩
  · rw [formatBytes_eval 1024 1 100 (by norm_num)
      (Nat.log_eq_of_pow_le_of_lt_pow (by norm_num) (by norm_num))
      (jsRound_eq _ _ (by norm_num) (by norm_num))]
    decide
  · rw [formatBytes_eval 1536 1 150 (by norm_num)
      (Nat.log_eq_of_pow_le_of_lt_pow (by norm_num) (by norm_num))
      (jsRound_eq _ _ (by norm_num) (by norm_num))]
    decide

/-- C10: `formatBytes` only defines unit names up to `"GB"`: for
`1 ≤ bytes < 1024^4` the unit index lands inside `sizes`, but for
`bytes ≥ 1024^4` the index is at least 4 and the lookup into
`['Bytes','KB','MB','GB']` falls outside the list. -/
theorem unitIndex_unit_bounds (bytes : ℕ) :
    (1 ≤ bytes → bytes < 1024 ^ 4 →
      (sizes.get? (unitIndex bytes)).isSome = true) ∧
    (1024 ^ 4 ≤ bytes →
      4 ≤ unitIndex bytes ∧ sizes.get? (unitIndex bytes) = none) := by
  constructor
  · intro h1 h4
    have hlt : unitIndex bytes < 4 :=
      Nat.log_lt_of_lt_pow (by omega) h4
    set i := unitIndex bytes with hi
    interval_cases i <;> rfl
  · intro h
    have hb0 : bytes ≠ 0 := by rintro rfl; norm_num at h
    have hge : 4 ≤ unitIndex bytes :=
      (Nat.pow_le_iff_le_log (by norm_num) hb0).mp h
    exact ⟨hge, List.get?_eq_none.mpr hge⟩

/-- Witness for C10 at 1536 bytes (inside the list) and at `1024^4` bytes
(outside the list). -/
theorem unitIndex_unit_bounds_witness :
    (sizes.get? (unitIndex 1536)).isSome = true ∧
    (4 ≤ unitIndex (1024 ^ 4) ∧ sizes.get? (unitIndex (1024 ^ 4)) = none) :=
  ⟨(unitIndex_unit_bounds 1536).1 (by norm_num) (by norm_num),
   (unitIndex_unit_bounds (1024 ^ 4)).2 le_rfl⟩

/-- C6: every file selection clears the processed output, the completed
crop and crop mode, regardless of the new file's type or of the HEIC
decoder's outcome. -/
theorem handleFileSelect_clears (env : BrowserEnv) (st : ComponentState)
    (file : JSFile) :
    (handleFileSelect env st (some file)).processedImage = none ∧
    (handleFileSelect env st (some file)).completedCrop = none ∧
    (handleFileSelect env st (some file)).showCrop = false :=
  ⟨rfl, rfl, rfl⟩

/-- An environment whose HEIC decoder always fails. -/
def heicFailEnv : BrowserEnv :=
  { heicConvert := fun _ => none, dataURL := fun f => f.name }

/-- An environment whose HEIC decoder always succeeds with a 3-byte blob. -/
def heicOkEnv : BrowserEnv :=
  { heicConvert := fun _ => some { mimeType := "image/jpeg", size := 3 }
    dataURL := fun f => f.name }

/-- A concrete component state with prior output and an active crop
session. -/
def priorState : ComponentState :=
  { selectedFile := none
    originalImage := some "data:old-image"
    processedImage := some "data:old-output"
    showCrop := true
    completedCrop := some ⟨1, 2, 3, 4⟩
    originalSize := 7
    compressedSize := 9
    alerts := [] }

/-- A concrete HEIC file. -/
def heicFile : JSFile :=
  { name := "photo.heic", mimeType := "image/heic", size := 42 }

/-- Counterexample to C7: selecting `heicFile` in `priorState` under a
failing HEIC decoder changes the selected file, the original size, the
processed output and the crop state, so prior state is not left
untouched. -/
theorem handleFileSelect_heic_failure_changes_state :
    (handleFileSelect heicFailEnv priorState (some heicFile)).selectedFile ≠
      priorState.selectedFile ∧
    (handleFileSelect heicFailEnv priorState (some heicFile)).originalSize ≠
      priorState.originalSize ∧
    (handleFileSelect heicFailEnv priorState (some heicFile)).processedImage ≠
      priorState.processedImage ∧
    (handleFileSelect heicFailEnv priorState (some heicFile)).completedCrop ≠
      priorState.completedCrop ∧
    (handleFileSelect heicFailEnv priorState (some heicFile)).showCrop ≠
      priorState.showCrop := by
  decide

/-- C7 (amended): on HEIC decode failure `handleFileSelect` surfaces the
alert "Error converting HEIC file" and leaves the original image preview
and compressed size untouched, but it still records the new file as
selected with its size, and clears the processed output and crop state. -/
theorem handleFileSelect_heic_failure (env : BrowserEnv) (st : ComponentState)
    (file : JSFile) (hheic : isHeic file = true)
    (hfail : env.heicConvert file = none) :
    (handleFileSelect env st (some file)).alerts =
      st.alerts ++ ["Error converting HEIC file"] ∧
    (handleFileSelect env st (some file)).originalImage = st.originalImage ∧
    (handleFileSelect env st (some file)).compressedSize = st.compressedSize ∧
    (handleFileSelect env st (some file)).selectedFile = some file ∧
    (handleFileSelect env st (some file)).originalSize = file.size ∧
    (handleFileSelect env st (some file)).processedImage = none ∧
    (handleFileSelect env st (some file)).completedCrop = none ∧
    (handleFileSelect env st (some file)).showCrop = false := by
  simp [handleFileSelect, hheic, hfail]

/-- Witness for the amended C7 at the concrete failing HEIC selection. -/
theorem handleFileSelect_heic_failure_witness :
    (handleFileSelect heicFailEnv priorState (some heicFile)).alerts =
      priorState.alerts ++ ["Error converting HEIC file"] ∧
    (handleFileSelect heicFailEnv priorState (some heicFile)).originalImage =
      priorState.originalImage ∧
    (handleFileSelect heicFailEnv priorState (some heicFile)).selectedFile =
      some heicFile := by
  have h := handleFileSelect_heic_failure heicFailEnv priorState heicFile
    (by decide) rfl
  exact ⟨h.1, h.2.1, h.2.2.2.1⟩

/-- A file whose declared MIME type is HEIC only up to letter case, with a
non-HEIC filename. -/
def upperHeicFile : JSFile :=
  { name := "photo.jpg", mimeType := "image/HEIC", size := 5 }

/-- Counterexample to C8: `upperHeicFile`'s MIME type is the HEIC image
type up to case, yet the routing test is false and `handleFileSelect`
keeps the raw file as selected instead of routing it through the (here
always succeeding) HEIC decoder: the MIME check is case-sensitive. -/
theorem handleFileSelect_mime_case_sensitive :
    jsToLower upperHeicFile.mimeType = "image/heic" ∧
    isHeic upperHeicFile = false ∧
    (handleFileSelect heicOkEnv priorState (some upperHeicFile)).selectedFile =
      some upperHeicFile := by
  decide

/-- C8 (amended): a selected file is routed through HEIC decoding iff its
declared MIME type equals `image/heic` exactly (case-sensitively) or its
filename ends with `.heic` case-insensitively; under a succeeding decoder,
routing is observable as the selected file being replaced by the converted
JPEG file. -/
theorem handleFileSelect_heic_routing (st : ComponentState) (file : JSFile)
    (blob : Blob) (url : JSFile → String) :
    (handleFileSelect ⟨fun _ => some blob, url⟩ st (some file)).selectedFile =
      (if file.mimeType = "image/heic" ∨
          jsEndsWith (jsToLower file.name) ".heic" = true
        then some (convertedHeicFile file blob)
        else some file) := by
  have hiff : isHeic file = true ↔
      (file.mimeType = "image/heic" ∨
        jsEndsWith (jsToLower file.name) ".heic" = true) := by
    simp [isHeic]
  cases hb : isHeic file with
  | true =>
    rw [if_pos (hiff.mp hb)]
    simp [handleFileSelect, hb]
  | false =>
    have hneg : ¬(file.mimeType = "image/heic" ∨
        jsEndsWith (jsToLower file.name) ".heic" = true) := by
      intro hc
      rw [hiff.mpr hc] at hb
      simp at hb
    rw [if_neg hneg]
    simp [handleFileSelect, hb]

/-- A concrete PNG file. -/
def pngFile : JSFile :=
  { name := "photo.png", mimeType := "image/png", size := 100 }

/-- C9: in the crop branch of `processImage`, the intermediate blob from
`getCroppedImage` is always encoded `image/jpeg`, while the `File` wrapper
handed to the compressor reuses the selected file's name and MIME type; in
particular for a selected PNG the wrapper's declared type disagrees with
the blob's actual encoding. -/
theorem processImage_crop_mime (encodeSize : CroppedCanvas → ℕ)
    (selectedFile : JSFile) (crop : PixelCrop) (image : ImageElement) :
    ((fileToProcess encodeSize selectedFile (some crop) (some image)).2.map
        Blob.mimeType = some "image/jpeg") ∧
    (fileToProcess encodeSize selectedFile (some crop) (some image)).1.name =
      selectedFile.name ∧
    (fileToProcess encodeSize selectedFile (some crop) (some image)).1.mimeType =
      selectedFile.mimeType ∧
    ((fileToProcess encodeSize pngFile (some crop) (some image)).2.map
        Blob.mimeType ≠
      some (fileToProcess encodeSize pngFile (some crop) (some image)).1.mimeType) := by
  refine ⟨rfl, rfl, rfl, ?_⟩
  intro h
  simp [fileToProcess, pngFile, getCroppedImage] at h

end ImageCompressor
